import Mathlib

/-!
Verification development for the NCERT doubt-solver RAG pipeline.

Strings from the Python source are modelled as `List Char` (Python `len`,
slicing and concatenation are code-point based, matching `List Char`
length/`take`/`append`).  Python dict-`get` with a default is modelled with
`Option`/`getD`.  Fallible collaborator calls are modelled with `Except`.
Scanning functions that consume their input non-structurally use an explicit
fuel argument initialised to the input length, which is always sufficient
because every step consumes at least one character.
-/

namespace RagPipeline

/-- Shorthand: the character list of a string literal. -/
def str (s : String) : List Char := s.data

/-- ASCII whitespace characters, the model of Python `str.strip` / `str.split`
whitespace and of regex `\s` for the character set this program produces. -/
def is_space_char (c : Char) : Bool :=
  c = ' ' || c = '\t' || c = '\n' || c = '\r' || c = '\x0b' || c = '\x0c'

/-- Basic-Latin letter, the model of regex `[a-zA-Z]`. -/
def is_latin_letter (c : Char) : Bool :=
  ('a' ≤ c && c ≤ 'z') || ('A' ≤ c && c ≤ 'Z')

/-- ASCII digit, the model of regex `\d` for the text this program handles. -/
def is_digit_char (c : Char) : Bool :=
  '0' ≤ c && c ≤ '9'

/-- ASCII lower-casing (the glossary source terms are ASCII). -/
def lower_ascii (c : Char) : Char :=
  if 'A' ≤ c && c ≤ 'Z' then Char.ofNat (c.toNat + 32) else c

/-- ASCII upper-casing. -/
def upper_ascii (c : Char) : Char :=
  if 'a' ≤ c && c ≤ 'z' then Char.ofNat (c.toNat - 32) else c

/-- Model of regex `\w` (word character) restricted to the scripts this
program handles: ASCII alphanumerics, underscore, and the Devanagari block. -/
def is_word_char (c : Char) : Bool :=
  is_latin_letter c || is_digit_char c || c = '_' ||
    (0x900 ≤ c.toNat && c.toNat ≤ 0x97F)

/-- Python `str.strip()`: drop leading and trailing whitespace. -/
def strip_ws (s : List Char) : List Char :=
  ((s.dropWhile is_space_char).reverse.dropWhile is_space_char).reverse

/-- Worker for `words` (Python `str.split()` with no argument): split on
whitespace runs, discarding empty fields. -/
def words_go : Nat → List Char → List (List Char)
  | 0, _ => []
  | _, [] => []
  | fuel+1, s =>
    match s.dropWhile is_space_char with
    | [] => []
    | c :: rest =>
      ((c :: rest).takeWhile (fun d => !is_space_char d)) ::
        words_go fuel ((c :: rest).dropWhile (fun d => !is_space_char d))

/-- Python `str.split()` with no argument. -/
def words (s : List Char) : List (List Char) :=
  words_go (s.length + 1) s

/-- Python `' '.join(s.split())`: collapse whitespace runs to single spaces
and trim the ends. -/
def collapse_ws (s : List Char) : List Char :=
  List.intercalate (str " ") (words s)

/-- Python substring test `pat in s`. -/
def contains_sub (pat : List Char) : List Char → Bool
  | [] => decide (pat = [])
  | c :: rest => decide ((c :: rest).take pat.length = pat) || contains_sub pat rest

/-- Worker for `replace_all` (Python `str.replace`): replace non-overlapping
occurrences left to right. -/
def replace_all_go (pat repl : List Char) : Nat → List Char → List Char
  | 0, s => s
  | _, [] => []
  | fuel+1, c :: rest =>
    if (c :: rest).take pat.length = pat then
      repl ++ replace_all_go pat repl fuel ((c :: rest).drop pat.length)
    else
      c :: replace_all_go pat repl fuel rest

/-- Python `s.replace(pat, repl)`.  The glossary patterns this program passes
are always non-empty; the empty pattern is treated as a no-op. -/
def replace_all (pat repl s : List Char) : List Char :=
  if pat = [] then s else replace_all_go pat repl s.length s

/-! ## Context assembler (mistral_service.build_mistral_prompt, lines 74-93) -/

/-- The truncation marker appended to an over-long chunk. -/
def TRUNC_MARKER : List Char := str "..."

/-- Per-chunk truncation (mistral_service.py lines 83-84):
`if len(chunk_text) > 800: chunk_text = chunk_text[:800] + "..."`. -/
def truncate_chunk (t : List Char) : List Char :=
  if 800 < t.length then t.take 800 ++ TRUNC_MARKER else t

/-- The language-localised context label
(`f"संदर्भ {i}:\n..."` or `f"Context {i}:\n..."`). -/
def context_label (is_hindi : Bool) : List Char :=
  if is_hindi then str "संदर्भ " else str "Context "

/-- The labelled, per-chunk-truncated content string added for chunk number
`i` (mistral_service.py line 87). -/
def chunk_content (is_hindi : Bool) (i : Nat) (text : List Char) : List Char :=
  context_label is_hindi ++ Nat.toDigits 10 i ++ str ":\n" ++
    truncate_chunk text ++ str "\n\n"

/-- The global character budget (mistral_service.py line 75). -/
def MAX_CONTEXT_CHARS : Nat := 3500

/-- The context-assembly loop (mistral_service.py lines 79-93): chunks are
consumed in retrieval order with a 1-based counter; the first chunk whose
labelled content would push the running total over the budget stops the whole
loop (`break`). -/
def assemble_context (is_hindi : Bool) : Nat → Nat → List (List Char) → List Char
  | _, _, [] => []
  | i, total, t :: rest =>
    let content := chunk_content is_hindi i t
    if MAX_CONTEXT_CHARS < total + content.length then []
    else content ++ assemble_context is_hindi (i+1) (total + content.length) rest

/-- The context blob built for the prompt. -/
def build_context (is_hindi : Bool) (chunks : List (List Char)) : List Char :=
  assemble_context is_hindi 1 0 chunks

/-- The labelled contents of all chunks, numbered from `i`, before the budget
cut-off is applied. -/
def labeled_contents (is_hindi : Bool) : Nat → List (List Char) → List (List Char)
  | _, [] => []
  | i, t :: rest => chunk_content is_hindi i t :: labeled_contents is_hindi (i+1) rest

theorem labeled_contents_length (h : Bool) :
    ∀ (cs : List (List Char)) (i : Nat), (labeled_contents h i cs).length = cs.length := by
  intro cs
  induction cs with
  | nil => intro i; simp [labeled_contents]
  | cons c rest ih => intro i; simp [labeled_contents, ih]

theorem assemble_context_length_le (h : Bool) :
    ∀ (cs : List (List Char)) (i total : Nat), total ≤ 3500 →
      total + (assemble_context h i total cs).length ≤ 3500 := by
  intro cs
  induction cs with
  | nil => intro i total ht; simpa [assemble_context] using ht
  | cons c rest ih =>
    intro i total ht
    by_cases hov : 3500 < total + (chunk_content h i c).length
    · simp only [assemble_context, MAX_CONTEXT_CHARS, if_pos hov, List.length_nil]
      omega
    · have hrec := ih (i+1) (total + (chunk_content h i c).length) (by omega)
      simp only [assemble_context, MAX_CONTEXT_CHARS, if_neg hov, List.length_append]
      omega

theorem assemble_context_prefix (h : Bool) :
    ∀ (cs : List (List Char)) (i total : Nat),
      ∃ k, k ≤ cs.length ∧
        assemble_context h i total cs = ((labeled_contents h i cs).take k).flatten ∧
        (∀ j, j < k →
          total + (((labeled_contents h i cs).take (j+1)).map List.length).sum ≤ 3500) ∧
        (∀ cnt, (labeled_contents h i cs)[k]? = some cnt →
          3500 < total + (((labeled_contents h i cs).take k).map List.length).sum
            + cnt.length) := by
  intro cs
  induction cs with
  | nil =>
    intro i total
    exact ⟨0, le_rfl, by simp [assemble_context, labeled_contents],
      fun j hj => absurd hj (Nat.not_lt_zero j),
      fun cnt hcnt => by simp [labeled_contents] at hcnt⟩
  | cons c rest ih =>
    intro i total
    by_cases hov : 3500 < total + (chunk_content h i c).length
    · refine ⟨0, Nat.zero_le _, ?_, fun j hj => absurd hj (Nat.not_lt_zero j), ?_⟩
      · simp only [assemble_context, MAX_CONTEXT_CHARS, if_pos hov, List.take_zero,
          List.flatten_nil]
      · intro cnt hcnt
        simp only [labeled_contents, List.getElem?_cons_zero, Option.some.injEq] at hcnt
        subst hcnt
        simpa using hov
    · obtain ⟨k, hk, heq, hbud, hover⟩ := ih (i+1) (total + (chunk_content h i c).length)
      refine ⟨k + 1, by simpa using Nat.succ_le_succ hk, ?_, ?_, ?_⟩
      · simp only [assemble_context, MAX_CONTEXT_CHARS, if_neg hov, labeled_contents,
          List.take_succ_cons, List.flatten_cons, heq]
      · intro j hj
        cases j with
        | zero =>
          simp only [labeled_contents, List.take_succ_cons, List.take_zero, List.map_cons,
            List.map_nil, List.sum_cons, List.sum_nil]
          omega
        | succ jj =>
          have := hbud jj (Nat.lt_of_succ_lt_succ hj)
          simp only [labeled_contents, List.take_succ_cons, List.map_cons, List.sum_cons]
          omega
      · intro cnt hcnt
        simp only [labeled_contents, List.getElem?_cons_succ] at hcnt
        have := hover cnt hcnt
        simp only [labeled_contents, List.take_succ_cons, List.map_cons, List.sum_cons]
        omega

/-- Claim C1: the context blob assembled for the prompt has total length at
most the global budget 3500, and assembly follows the monotone-stop policy:
the blob is the concatenation of the labelled contents of a prefix of the
retrieved chunks, every included step keeps the running total within budget,
and the first excluded chunk (if any) is one whose labelled content would
overflow the budget — it and every later chunk are dropped. -/
theorem C1_context_budget_monotone_stop (h : Bool) (chunks : List (List Char)) :
    (build_context h chunks).length ≤ 3500 ∧
    ∃ k, k ≤ chunks.length ∧
      build_context h chunks = ((labeled_contents h 1 chunks).take k).flatten ∧
      (∀ j, j < k →
        (((labeled_contents h 1 chunks).take (j+1)).map List.length).sum ≤ 3500) ∧
      (∀ cnt, (labeled_contents h 1 chunks)[k]? = some cnt →
        3500 < (((labeled_contents h 1 chunks).take k).map List.length).sum
          + cnt.length) := by
  constructor
  · have := assemble_context_length_le h chunks 1 0 (by omega)
    simpa [build_context] using this
  · obtain ⟨k, hk, heq, hbud, hover⟩ := assemble_context_prefix h chunks 1 0
    refine ⟨k, ?_, by simp only [build_context]; exact heq, ?_, ?_⟩
    · exact hk
    · intro j hj
      have := hbud j hj
      omega
    · intro cnt hcnt
      have := hover cnt hcnt
      omega

/-- Claim C4: a chunk's contribution to the context is its first 800
characters (all of it when it is short) followed by the truncation marker
exactly when the original text exceeds 800 characters; the included body is
never longer than 800 characters, and a 900-character chunk contributes
exactly its first 800 characters plus the marker. -/
theorem C4_per_chunk_truncation (t : List Char) :
    truncate_chunk t = t.take 800 ++ (if 800 < t.length then TRUNC_MARKER else []) ∧
    (t.take 800).length ≤ 800 ∧
    (t.length = 900 →
      truncate_chunk t = t.take 800 ++ TRUNC_MARKER ∧ (t.take 800).length = 800) := by
  refine ⟨?_, ?_, ?_⟩
  · by_cases hl : 800 < t.length
    · simp [truncate_chunk, hl]
    · simp only [truncate_chunk, if_neg hl]
      rw [List.take_of_length_le (by omega), List.append_nil]
  · exact le_trans (le_of_eq (List.length_take 800 t)) (min_le_left _ _)
  · intro h900
    constructor
    · simp [truncate_chunk, h900]
    · simp [List.length_take, h900]

/-- Witness for claim C4 at a concrete 900-character chunk. -/
theorem C4_per_chunk_truncation_witness :
    (List.replicate 900 'a').length = 900 ∧
    (truncate_chunk (List.replicate 900 'a') =
        (List.replicate 900 'a').take 800 ++ TRUNC_MARKER ∧
      ((List.replicate 900 'a').take 800).length = 800) :=
  ⟨by rw [List.length_replicate],
    (C4_per_chunk_truncation (List.replicate 900 'a')).2.2 (by rw [List.length_replicate])⟩

/-! ## Rounding: the model of Python `round(x, 3)` -/

/-- Round-half-to-even on rationals: the exact-arithmetic idealisation of
Python's `round` (banker's rounding). -/
def round_half_even (q : ℚ) : ℤ :=
  if Int.fract q < 1/2 then ⌊q⌋
  else if 1/2 < Int.fract q then ⌊q⌋ + 1
  else if Even ⌊q⌋ then ⌊q⌋ else ⌊q⌋ + 1

/-- Python `round(q, 3)`: round to the nearest multiple of 1/1000, ties to
even. -/
def round3 (q : ℚ) : ℚ := (round_half_even (q * 1000) : ℚ) / 1000

/-- api_server.format_citations lines 138-139:
`relevance = round(1 - distance, 3)`. -/
def relevance_of (distance : ℚ) : ℚ := round3 (1 - distance)

theorem floor_le_round_half_even (q : ℚ) : ⌊q⌋ ≤ round_half_even q := by
  unfold round_half_even
  split_ifs <;> omega

theorem round_half_even_le_floor_add_one (q : ℚ) : round_half_even q ≤ ⌊q⌋ + 1 := by
  unfold round_half_even
  split_ifs <;> omega

theorem round_half_even_mono {q r : ℚ} (h : q ≤ r) :
    round_half_even q ≤ round_half_even r := by
  have hfl := Int.floor_mono h
  rcases eq_or_lt_of_le hfl with hf | hf
  · have hfr : Int.fract q ≤ Int.fract r := by
      have hq := Int.floor_add_fract q
      have hr := Int.floor_add_fract r
      have : ((⌊q⌋ : ℚ)) = ((⌊r⌋ : ℚ)) := by rw [hf]
      linarith
    unfold round_half_even
    split_ifs with h1 h2 h3 h4 h5 h6 h7 h8 h9 <;>
      first
        | omega
        | (exfalso; linarith)
        | (exfalso; rw [hf] at *; simp_all)
  · calc round_half_even q ≤ ⌊q⌋ + 1 := round_half_even_le_floor_add_one q
      _ ≤ ⌊r⌋ := by omega
      _ ≤ round_half_even r := floor_le_round_half_even r

theorem round_half_even_le_add_half (q : ℚ) : (round_half_even q : ℚ) ≤ q + 1/2 := by
  have hq := Int.floor_add_fract q
  have hnn := Int.fract_nonneg q
  unfold round_half_even
  split_ifs with h1 h2 h3 <;> push_cast <;> linarith

theorem round_half_even_neg {q : ℚ} (h : q < -(1/2)) : round_half_even q < 0 := by
  have hb := round_half_even_le_add_half q
  have : (round_half_even q : ℚ) < 0 := by linarith
  exact_mod_cast this

theorem relevance_of_antitone {d1 d2 : ℚ} (h : d1 ≤ d2) :
    relevance_of d2 ≤ relevance_of d1 := by
  unfold relevance_of round3
  have hmul : (1 - d2) * 1000 ≤ (1 - d1) * 1000 := by linarith
  have hre := round_half_even_mono hmul
  have hcast : ((round_half_even ((1 - d2) * 1000) : ℚ))
      ≤ ((round_half_even ((1 - d1) * 1000) : ℚ)) := by exact_mod_cast hre
  linarith

theorem relevance_of_neg {d : ℚ} (h : 2001/2000 < d) : relevance_of d < 0 := by
  unfold relevance_of round3
  have hlt : (1 - d) * 1000 < -(1/2) := by linarith
  have hre := round_half_even_neg hlt
  have hcast : ((round_half_even ((1 - d) * 1000) : ℚ)) < 0 := by exact_mod_cast hre
  linarith

/-! ## Citation formatter (api_server.format_citations, lines 121-160) -/

/-- Flattened chunk metadata record.  Each field models a `metadata.get(...)`
key; `sec` models `metadata['section']` (`section` is a Lean keyword). -/
structure ChunkMetadata where
  chapter : Option (List Char) := none
  sec : Option (List Char) := none
  page_num : Option Int := none
  token_count : Option Nat := none
  grade : Option Nat := none
  subject : Option (List Char) := none
  meta_source_file : Option (List Char) := none
deriving DecidableEq

/-- A retrieved chunk as handed to the citation formatter; `Option` fields
model dict keys accessed through `.get(key, default)`. -/
structure Chunk where
  chunk_id : Option (List Char) := none
  text : Option (List Char) := none
  metadata : Option ChunkMetadata := none
  distance : Option ℚ := none
deriving DecidableEq

/-- A display-ready citation (api_server.py Citation model). -/
structure Citation where
  id : Nat
  source : List Char
  chapter : List Char
  sec : List Char
  page : Int
  excerpt : List Char
  relevance : ℚ
  chunk_id : List Char
deriving DecidableEq

/-- api_server.py lines 133-136: `excerpt = full_text[:150].strip()`, with an
ellipsis appended when the original text is longer than 150 characters. -/
def excerpt_of (full_text : List Char) : List Char :=
  let e := strip_ws (full_text.take 150)
  if 150 < full_text.length then e ++ str "..." else e

/-- Worker for Python `str.title()` (ASCII model): a letter is upper-cased
when the previous character is not a letter, lower-cased otherwise. -/
def title_case_go : Bool → List Char → List Char
  | _, [] => []
  | prev_alpha, c :: rest =>
    if is_latin_letter c then
      (if prev_alpha then lower_ascii c else upper_ascii c) :: title_case_go true rest
    else
      c :: title_case_go false rest

/-- Python `str.title()`. -/
def title_case (s : List Char) : List Char := title_case_go false s

/-- The `'Unknown'` chapter sentinel. -/
def UNKNOWN : List Char := str "Unknown"

/-- The `'General'` section sentinel. -/
def GENERAL : List Char := str "General"

/-- The per-chunk citation built by api_server.format_citations
(lines 125-154), `idx` being the 0-based retrieval index. -/
def citation_of_chunk (grade : Nat) (subject : List Char) (idx : Nat)
    (chunk : Chunk) : Citation :=
  let metadata := chunk.metadata.getD {}
  let chapter0 := metadata.chapter.getD UNKNOWN
  let sec := metadata.sec.getD GENERAL
  let chapter := if chapter0 = UNKNOWN ∧ sec ≠ GENERAL then sec else chapter0
  let full_text := chunk.text.getD []
  let distance := chunk.distance.getD (1/2)
  let subject_title := title_case (subject.map (fun c => if c = '_' then ' ' else c))
  { id := idx + 1,
    source := str "NCERT " ++ subject_title ++ str " Grade " ++ Nat.toDigits 10 grade,
    chapter := chapter,
    sec := sec,
    page := metadata.page_num.getD 0,
    excerpt := excerpt_of full_text,
    relevance := relevance_of distance,
    chunk_id := chunk.chunk_id.getD [] }

/-- The citation list before sorting, with 0-based enumeration as in
`for idx, chunk in enumerate(retrieved_chunks)`. -/
def citations_from (grade : Nat) (subject : List Char) : Nat → List Chunk → List Citation
  | _, [] => []
  | idx, c :: rest =>
    citation_of_chunk grade subject idx c :: citations_from grade subject (idx+1) rest

/-- api_server.py lines 157-158: after sorting, ranks are rewritten to
`idx + 1` in output order. -/
def renumber : Nat → List Citation → List Citation
  | _, [] => []
  | i, c :: rest => { c with id := i } :: renumber (i+1) rest

/-- The comparison realised by
`citations.sort(key=lambda x: x['relevance'], reverse=True)`: `a` may come
before `b` when `b`'s relevance is at most `a`'s.  CPython's sort is stable
and `reverse=True` keeps equal keys in their original relative order, which
is exactly `List.insertionSort` under this non-strict descending relation. -/
def rel_ge (a b : Citation) : Prop := b.relevance ≤ a.relevance

instance : DecidableRel rel_ge := fun a b => inferInstanceAs (Decidable (b.relevance ≤ a.relevance))

instance : IsTotal Citation rel_ge := ⟨fun a b => le_total b.relevance a.relevance⟩

instance : IsTrans Citation rel_ge := ⟨fun _ _ _ h1 h2 => le_trans h2 h1⟩

/-- api_server.format_citations, lines 121-160. -/
def format_citations (retrieved_chunks : List Chunk) (grade : Nat)
    (subject : List Char) : List Citation :=
  renumber 1 (List.insertionSort rel_ge (citations_from grade subject 0 retrieved_chunks))

/-- A citation together with its 0-based retrieval index, used to state
stability of the sort. -/
structure TaggedCitation where
  cit : Citation
  orig : Nat
deriving DecidableEq

/-- The sort relation lifted to tagged citations (it still compares only the
relevance keys, exactly as the Python `key=` function does). -/
def rel_ge_t (a b : TaggedCitation) : Prop := rel_ge a.cit b.cit

instance : DecidableRel rel_ge_t := fun a b => inferInstanceAs (Decidable (b.cit.relevance ≤ a.cit.relevance))

instance : IsTotal TaggedCitation rel_ge_t := ⟨fun a b => le_total b.cit.relevance a.cit.relevance⟩

instance : IsTrans TaggedCitation rel_ge_t := ⟨fun _ _ _ h1 h2 => le_trans h2 h1⟩

/-- The pre-sort citation list with each citation tagged by its retrieval
index. -/
def tagged_citations_from (grade : Nat) (subject : List Char) :
    Nat → List Chunk → List TaggedCitation
  | _, [] => []
  | idx, c :: rest =>
    ⟨citation_of_chunk grade subject idx c, idx⟩ ::
      tagged_citations_from grade subject (idx+1) rest

theorem round_half_even_eq_low (n : ℤ) (q : ℚ) (h1 : (n:ℚ) ≤ q) (h2 : q < n + 1/2) :
    round_half_even q = n := by
  have hfl : ⌊q⌋ = n := Int.floor_eq_iff.mpr ⟨h1, by linarith⟩
  have hfr : Int.fract q < 1/2 := by
    rw [Int.fract, hfl]; linarith
  unfold round_half_even
  rw [if_pos hfr, hfl]

theorem round_half_even_eq_high (n : ℤ) (q : ℚ) (h1 : (n:ℚ) + 1/2 < q) (h2 : q < n + 1) :
    round_half_even q = n + 1 := by
  have hfl : ⌊q⌋ = n := Int.floor_eq_iff.mpr ⟨by linarith, by linarith⟩
  have hfr : 1/2 < Int.fract q := by
    rw [Int.fract, hfl]; linarith
  unfold round_half_even
  rw [if_neg (by linarith), if_pos hfr, hfl]

/-! ## Lemmas about the citation sort -/

theorem citations_from_length (grade : Nat) (subject : List Char) :
    ∀ (cs : List Chunk) (i : Nat), (citations_from grade subject i cs).length = cs.length := by
  intro cs
  induction cs with
  | nil => intro i; simp [citations_from]
  | cons c rest ih => intro i; simp [citations_from, ih]

theorem renumber_length : ∀ (l : List Citation) (i : Nat), (renumber i l).length = l.length := by
  intro l
  induction l with
  | nil => intro i; simp [renumber]
  | cons c rest ih => intro i; simp [renumber, ih]

theorem renumber_map_id :
    ∀ (l : List Citation) (i : Nat),
      (renumber i l).map Citation.id = List.range' i l.length := by
  intro l
  induction l with
  | nil => intro i; simp [renumber]
  | cons c rest ih => intro i; simp [renumber, List.range', ih]

theorem renumber_map_relevance :
    ∀ (l : List Citation) (i : Nat),
      (renumber i l).map Citation.relevance = l.map Citation.relevance := by
  intro l
  induction l with
  | nil => intro i; simp [renumber]
  | cons c rest ih => intro i; simp [renumber, ih]

theorem tagged_map_cit (grade : Nat) (subject : List Char) :
    ∀ (cs : List Chunk) (i : Nat),
      (tagged_citations_from grade subject i cs).map TaggedCitation.cit
        = citations_from grade subject i cs := by
  intro cs
  induction cs with
  | nil => intro i; simp [tagged_citations_from, citations_from]
  | cons c rest ih => intro i; simp [tagged_citations_from, citations_from, ih]

theorem tagged_map_orig (grade : Nat) (subject : List Char) :
    ∀ (cs : List Chunk) (i : Nat),
      (tagged_citations_from grade subject i cs).map TaggedCitation.orig
        = List.range' i cs.length := by
  intro cs
  induction cs with
  | nil => intro i; simp [tagged_citations_from]
  | cons c rest ih => intro i; simp [tagged_citations_from, List.range', ih]

theorem tagged_orig_le (grade : Nat) (subject : List Char) :
    ∀ (cs : List Chunk) (i : Nat) (x : TaggedCitation),
      x ∈ tagged_citations_from grade subject i cs → i ≤ x.orig := by
  intro cs
  induction cs with
  | nil => intro i x hx; simp [tagged_citations_from] at hx
  | cons c rest ih =>
    intro i x hx
    rcases (List.mem_cons).mp hx with rfl | hx'
    · exact le_rfl
    · exact le_trans (Nat.le_succ i) (ih (i+1) x hx')

theorem tagged_orig_pairwise (grade : Nat) (subject : List Char) :
    ∀ (cs : List Chunk) (i : Nat),
      (tagged_citations_from grade subject i cs).Pairwise
        (fun a b => a.orig < b.orig) := by
  intro cs
  induction cs with
  | nil => intro i; simp [tagged_citations_from]
  | cons c rest ih =>
    intro i
    refine List.Pairwise.cons ?_ (ih (i+1))
    intro y hy
    exact lt_of_lt_of_le (Nat.lt_succ_self i) (tagged_orig_le grade subject rest (i+1) y hy)

/-- Stability relation: when two citations carry the same relevance key, the
one that appears first in the output came first in retrieval order. -/
def stable_rel (a b : TaggedCitation) : Prop :=
  a.cit.relevance = b.cit.relevance → a.orig < b.orig

theorem orderedInsert_stable (a : TaggedCitation) :
    ∀ (l : List TaggedCitation), (∀ b ∈ l, a.orig < b.orig) → l.Pairwise stable_rel →
      (List.orderedInsert rel_ge_t a l).Pairwise stable_rel := by
  intro l
  induction l with
  | nil =>
    intro _ _
    simp [List.orderedInsert]
  | cons b t ih =>
    intro ha hl
    rcases List.pairwise_cons.mp hl with ⟨hb, ht⟩
    simp only [List.orderedInsert]
    by_cases hr : rel_ge_t a b
    · rw [if_pos hr]
      refine List.Pairwise.cons ?_ hl
      intro y hy _
      exact ha y hy
    · rw [if_neg hr]
      refine List.Pairwise.cons ?_
        (ih (fun c hc => ha c (List.mem_cons_of_mem b hc)) ht)
      intro y hy
      rcases (List.mem_orderedInsert rel_ge_t).mp hy with rfl | hy'
      · intro hrel
        exact absurd (le_of_eq hrel) hr
      · exact hb y hy'

theorem insertionSort_stable :
    ∀ (l : List TaggedCitation), l.Pairwise (fun a b => a.orig < b.orig) →
      (List.insertionSort rel_ge_t l).Pairwise stable_rel := by
  intro l
  induction l with
  | nil =>
    intro _
    simp [List.insertionSort]
  | cons a t ih =>
    intro hl
    rcases List.pairwise_cons.mp hl with ⟨ha, ht⟩
    simp only [List.insertionSort]
    refine orderedInsert_stable a _ ?_ (ih ht)
    intro b hb
    exact ha b ((List.mem_insertionSort rel_ge_t).mp hb)

/-- Claim C2: for every retrieved-chunk list of length n, the citation
formatter emits exactly n citations; id fields are exactly 1..n in output
order; the output is ordered by non-increasing relevance; and ties are
resolved stably: in the index-tagged image of the same computation, any two
equal-relevance citations appear in increasing retrieval order.  The
conjuncts tying `format_citations` to the tagged sort show the tagged list
is the same data with its 0-based retrieval index attached. -/
theorem C2_citations_ranked_sorted_stable (chunks : List Chunk) (grade : Nat)
    (subject : List Char) :
    (format_citations chunks grade subject).length = chunks.length ∧
    (format_citations chunks grade subject).map Citation.id
      = List.range' 1 chunks.length ∧
    (format_citations chunks grade subject).Pairwise rel_ge ∧
    format_citations chunks grade subject
      = renumber 1 ((List.insertionSort rel_ge_t
          (tagged_citations_from grade subject 0 chunks)).map TaggedCitation.cit) ∧
    (tagged_citations_from grade subject 0 chunks).map TaggedCitation.cit
      = citations_from grade subject 0 chunks ∧
    (tagged_citations_from grade subject 0 chunks).map TaggedCitation.orig
      = List.range' 0 chunks.length ∧
    (List.insertionSort rel_ge_t
      (tagged_citations_from grade subject 0 chunks)).Pairwise rel_ge_t ∧
    (List.insertionSort rel_ge_t
      (tagged_citations_from grade subject 0 chunks)).Pairwise stable_rel := by
  have hmap : (List.insertionSort rel_ge_t
      (tagged_citations_from grade subject 0 chunks)).map TaggedCitation.cit
        = List.insertionSort rel_ge (citations_from grade subject 0 chunks) := by
    rw [List.map_insertionSort rel_ge_t rel_ge TaggedCitation.cit _
      (fun a _ b _ => Iff.rfl)]
    rw [tagged_map_cit]
  refine ⟨?_, ?_, ?_, ?_, tagged_map_cit grade subject chunks 0,
    tagged_map_orig grade subject chunks 0, ?_, ?_⟩
  · rw [format_citations, renumber_length, List.length_insertionSort,
      citations_from_length]
  · rw [format_citations, renumber_map_id, List.length_insertionSort,
      citations_from_length]
  · have h1 : (List.insertionSort rel_ge
        (citations_from grade subject 0 chunks)).Pairwise rel_ge :=
      List.sorted_insertionSort rel_ge (citations_from grade subject 0 chunks)
    have h2 : ((List.insertionSort rel_ge
        (citations_from grade subject 0 chunks)).map Citation.relevance).Pairwise
          (fun x y => y ≤ x) := List.pairwise_map.mpr h1
    rw [← renumber_map_relevance _ 1] at h2
    have h3 := List.pairwise_map.mp h2
    exact h3
  · rw [format_citations, hmap]
  · exact List.sorted_insertionSort rel_ge_t _
  · exact insertionSort_stable _ (tagged_orig_pairwise grade subject chunks 0)

/-- Claim C3 (corrected): the relevance computed by the citation formatter is
`round(1 - distance, 3)`, which is monotonically non-increasing in the
distance and is never clamped; but a distance only slightly above 1 rounds to
exactly 0, so the negativity threshold is 1.0005: every distance strictly
greater than 1.0005 yields a negative relevance. -/
theorem C3_relevance_formula_monotone (grade : Nat) (subject : List Char)
    (idx : Nat) (chunk : Chunk) (d1 d2 d3 : ℚ)
    (h12 : d1 ≤ d2) (h3 : 2001/2000 < d3) :
    (citation_of_chunk grade subject idx chunk).relevance
      = relevance_of (chunk.distance.getD (1/2)) ∧
    relevance_of d2 ≤ relevance_of d1 ∧
    relevance_of d3 < 0 :=
  ⟨rfl, relevance_of_antitone h12, relevance_of_neg h3⟩

/-- Witness for claim C3 at concrete distances 1/4 ≤ 1/2 and 3/2. -/
theorem C3_relevance_formula_monotone_witness :
    ((1:ℚ)/4 ≤ 1/2 ∧ (2001:ℚ)/2000 < 3/2) ∧
    ((citation_of_chunk 6 (str "science") 0 {}).relevance
        = relevance_of (({} : Chunk).distance.getD (1/2)) ∧
      relevance_of (1/2) ≤ relevance_of (1/4) ∧
      relevance_of (3/2) < 0) :=
  ⟨⟨by norm_num, by norm_num⟩,
    C3_relevance_formula_monotone 6 (str "science") 0 {} (1/4) (1/2) (3/2)
      (by norm_num) (by norm_num)⟩

/-- Counterexample for claim C3 as stated: the distance 2501/2500 = 1.0004
lies in (1, 2], yet its relevance is exactly 0, not negative — so "distances
greater than 1 yield a negative relevance" fails. -/
theorem C3_counterexample :
    (1:ℚ) < 2501/2500 ∧ (2501:ℚ)/2500 ≤ 2 ∧
    relevance_of (2501/2500) = 0 ∧ ¬ relevance_of (2501/2500) < 0 := by
  have hval : relevance_of (2501/2500) = 0 := by
    unfold relevance_of round3
    have harg : (1 - (2501:ℚ)/2500) * 1000 = -2/5 := by norm_num
    rw [harg]
    have hre : round_half_even (-2/5) = -1 + 1 :=
      round_half_even_eq_high (-1) (-2/5) (by norm_num) (by norm_num)
    rw [hre]
    norm_num
  exact ⟨by norm_num, by norm_num, hval, by rw [hval]; exact lt_irrefl 0⟩

/-- Claim C7 (corrected): the excerpt is the whitespace-stripped first-150
character prefix of the chunk text, with an ellipsis marker appended exactly
when the text is longer than 150 characters.  The claim's "text unchanged"
clause fails because of the strip. -/
theorem C7_excerpt_amended (t : List Char) :
    excerpt_of t
      = strip_ws (t.take 150) ++ (if 150 < t.length then str "..." else []) ∧
    (t.length ≤ 150 → excerpt_of t = strip_ws t) ∧
    (150 < t.length → excerpt_of t = strip_ws (t.take 150) ++ str "...") ∧
    (∀ (grade : Nat) (subject : List Char) (idx : Nat) (ch : Chunk),
      (citation_of_chunk grade subject idx ch).excerpt
        = excerpt_of (ch.text.getD [])) := by
  refine ⟨?_, ?_, ?_, fun _ _ _ _ => rfl⟩
  · by_cases hl : 150 < t.length
    · simp [excerpt_of, hl]
    · simp [excerpt_of, hl]
  · intro hle
    have hnl : ¬ 150 < t.length := by omega
    simp only [excerpt_of, if_neg hnl]
    rw [List.take_of_length_le hle]
  · intro hl
    simp [excerpt_of, hl]

/-- Witness for claim C7 at concrete short and long texts. -/
theorem C7_excerpt_amended_witness :
    ((str "ab").length ≤ 150 ∧ 150 < (List.replicate 200 'x').length) ∧
    (excerpt_of (str "ab") = strip_ws (str "ab") ∧
      excerpt_of (List.replicate 200 'x')
        = strip_ws ((List.replicate 200 'x').take 150) ++ str "...") :=
  ⟨⟨by decide, by rw [List.length_replicate]; omega⟩,
    (C7_excerpt_amended (str "ab")).2.1 (by decide),
    (C7_excerpt_amended (List.replicate 200 'x')).2.2.1
      (by rw [List.length_replicate]; omega)⟩

/-- Counterexample for claim C7 as stated: a two-character chunk text with a
trailing space is within the 150-character limit, yet its excerpt is the
stripped text, not the text unchanged. -/
theorem C7_counterexample :
    (str "a ").length ≤ 150 ∧
    (citation_of_chunk 6 (str "science") 0 { text := some (str "a ") }).excerpt
      = str "a" ∧
    str "a" ≠ str "a " := by
  refine ⟨by decide, ?_, by decide⟩
  show excerpt_of (str "a ") = str "a"
  decide

/-! ## Language handling and glossaries (rag_orchestrator.py) -/

/-- `language.lower() in ["hindi", "hi"]` (mistral_service.py line 72,
rag_orchestrator.py lines 181, 236, api_server.py line 310). -/
def is_hindi_lang (language : List Char) : Bool :=
  decide (language.map lower_ascii = str "hindi") ||
    decide (language.map lower_ascii = str "hi")

/-- Python `s.isascii()`. -/
def is_ascii_str (s : List Char) : Bool := s.all (fun c => c.toNat < 128)

/-- The retrieval-side glossary of rag_orchestrator._translate_hindi_query
(lines 58-76), in dict insertion order. -/
def hindi_to_english : List (List Char × List Char) :=
  [(str "प्रकाश संश्लेषण", str "photosynthesis"),
   (str "प्रकाश", str "light"),
   (str "संश्लेषण", str "synthesis"),
   (str "पौधे", str "plants"),
   (str "पत्ते", str "leaves"),
   (str "हरा", str "green"),
   (str "भोजन", str "food"),
   (str "कार्बन डाइऑक्साइड", str "carbon dioxide"),
   (str "पानी", str "water"),
   (str "सूर्य का प्रकाश", str "sunlight"),
   (str "ऑक्सीजन", str "oxygen"),
   (str "वायुमंडल", str "atmosphere"),
   (str "परावर्तन", str "reflection"),
   (str "छाया", str "shadow"),
   (str "पारदर्शी", str "transparent"),
   (str "अपारदर्शी", str "opaque"),
   (str "अर्धपारदर्शी", str "translucent")]

/-- The generation-side glossary of rag_orchestrator._get_hindi_terms
(lines 85-122), in dict insertion order. -/
def english_to_hindi : List (List Char × List Char) :=
  [(str "photosynthesis", str "प्रकाश संश्लेषण"),
   (str "light", str "प्रकाश"),
   (str "plants", str "पौधे"),
   (str "leaves", str "पत्ते"),
   (str "green", str "हरा"),
   (str "food", str "भोजन"),
   (str "carbon dioxide", str "कार्बन डाइऑक्साइड"),
   (str "water", str "पानी"),
   (str "sunlight", str "सूर्य का प्रकाश"),
   (str "oxygen", str "ऑक्सीजन"),
   (str "atmosphere", str "वायुमंडल"),
   (str "reflection", str "परावर्तन"),
   (str "shadow", str "छाया"),
   (str "transparent", str "पारदर्शी"),
   (str "opaque", str "अपारदर्शी"),
   (str "translucent", str "अर्धपारदर्शी"),
   (str "process", str "प्रक्रिया"),
   (str "energy", str "ऊर्जा"),
   (str "chlorophyll", str "हरितलवक"),
   (str "glucose", str "ग्लूकोज"),
   (str "starch", str "स्टार्च"),
   (str "production", str "उत्पादन"),
   (str "results", str "परिणाम"),
   (str "presence", str "उपस्थिति"),
   (str "using", str "का उपयोग करके"),
   (str "make", str "बनाते हैं"),
   (str "their", str "अपना"),
   (str "by which", str "जिसके द्वारा"),
   (str "is a", str "एक"),
   (str "and", str "तथा"),
   (str "in the", str "में"),
   (str "of", str "का"),
   (str "sun", str "सूर्य")]

/-- rag_orchestrator._translate_hindi_query (lines 56-83): every glossary
pair whose Hindi term occurs in the ORIGINAL query has all its occurrences
replaced in the running translation, in dict order. -/
def translate_hindi_query (query : List Char) : List Char :=
  hindi_to_english.foldl
    (fun tq p => if contains_sub p.1 query then replace_all p.1 p.2 tq else tq)
    query

/-- The canonical retrieval-side search string
(rag_orchestrator.process_query lines 147-150): the query is rewritten only
when it is not pure ASCII. -/
def search_string_of (query : List Char) : List Char :=
  if is_ascii_str query then query else translate_hindi_query query

/-! ## Response sanitizer -/

/-- Worker for `count_english_runs`, carrying the length of the current
letter run. -/
def count_english_runs_go : List Char → Nat → Nat
  | [], run => if 4 ≤ run then 1 else 0
  | c :: rest, run =>
    if is_latin_letter c then count_english_runs_go rest (run + 1)
    else (if 4 ≤ run then 1 else 0) + count_english_runs_go rest 0

/-- `len(re.findall(r'[a-zA-Z]{4,}', s))` (mistral_service.py line 199):
the number of maximal basic-Latin letter runs of length at least 4. -/
def count_english_runs (s : List Char) : Nat := count_english_runs_go s 0

/-- Case-insensitive match of `term` at the head of `s` (an `re.escape`d
literal under `re.IGNORECASE`; the glossary terms are ASCII). -/
def ci_match (term s : List Char) : Bool :=
  decide (term.length ≤ s.length) &&
    decide ((s.take term.length).map lower_ascii = term.map lower_ascii)

/-- Regex `\b`: a word boundary lies between two adjacent positions when
exactly one of the neighbouring characters is a word character (text edges
count as non-word). -/
def boundary_between (prev next : Option Char) : Bool :=
  (match prev with | some c => is_word_char c | none => false)
    != (match next with | some c => is_word_char c | none => false)

/-- Worker for `sub_word_ci`: a left-to-right scan replacing every
word-bounded, case-insensitive occurrence of `term`.  `prev` is the
character just before the scan position (regex positions live in the
original text, so after a match the previous character is the last matched
character). -/
def sub_word_ci_go (term repl : List Char) : Nat → Option Char → List Char → List Char
  | 0, _, s => s
  | _, _, [] => []
  | fuel+1, prev, c :: rest =>
    if ci_match term (c :: rest) && boundary_between prev (some c)
        && boundary_between ((c :: rest).take term.length).getLast?
            ((c :: rest).drop term.length).head? then
      repl ++ sub_word_ci_go term repl fuel ((c :: rest).take term.length).getLast?
        ((c :: rest).drop term.length)
    else
      c :: sub_word_ci_go term repl fuel (some c) rest

/-- `re.sub(r'\b' + re.escape(term) + r'\b', repl, s, flags=re.IGNORECASE)`
(mistral_service.py line 205).  The glossary terms are non-empty; the empty
term is treated as a no-op. -/
def sub_word_ci (term repl s : List Char) : List Char :=
  if term = [] then s else sub_word_ci_go term repl s.length none s

/-- The longest-source-term-first ordering relation of
`sorted(hindi_terms.items(), key=lambda x: len(x[0]), reverse=True)`:
CPython's stable descending sort is `insertionSort` under this non-strict
relation. -/
def term_len_ge (a b : List Char × List Char) : Prop := b.1.length ≤ a.1.length

instance : DecidableRel term_len_ge :=
  fun a b => inferInstanceAs (Decidable (b.1.length ≤ a.1.length))

/-- Glossary items sorted by descending source-term length, stably. -/
def sort_terms_desc (g : List (List Char × List Char)) : List (List Char × List Char) :=
  List.insertionSort term_len_ge g

/-- The adapter-side Hindi leakage pass (mistral_service.generate_answer
lines 196-205): when the response language is Hindi, the 4+-letter Latin
runs are counted; only when that count exceeds 5 AND a non-empty glossary
is present (`if hindi_terms:`) is each glossary term substituted
case-insensitively on word boundaries, longest source term first; otherwise
the leakage is only flagged (a log warning) and the text is unchanged. -/
def adapter_leakage (language : List Char)
    (hindi_terms : Option (List (List Char × List Char)))
    (answer : List Char) : List Char :=
  if is_hindi_lang language then
    if 5 < count_english_runs answer then
      match hindi_terms with
      | some g =>
        if g = [] then answer
        else (sort_terms_desc g).foldl (fun a p => sub_word_ci p.1 p.2 a) answer
      | none => answer
    else answer
  else answer

/-! ## Citation-marker stripping (the two `re.sub` calls of
mistral_service.py lines 192-193 and rag_orchestrator.py lines 231-232) -/

/-- The alternation `(?:Source|स्रोत|संदर्भ)`. -/
def lit_alt1 : List (List Char) := [str "Source", str "स्रोत", str "संदर्भ"]

/-- The alternation `(?:Page|पृष्ठ)`. -/
def lit_alt2 : List (List Char) := [str "Page", str "पृष्ठ"]

/-- The first alternative that literally matches at the head of `s`,
returning its length. -/
def first_lit_at : List (List Char) → List Char → Option Nat
  | [], _ => none
  | l :: rest, s =>
    if s.take l.length = l then some l.length else first_lit_at rest s

/-- Attempt to match `\[(?:Source|स्रोत|संदर्भ)\s*\d+[^\]]*\]` at the head of
`s`, returning the match length.  `[^\]]*` cannot cross a `]`, so a match
always ends at the first `]` after the digits. -/
def try_match_citation1 (s : List Char) : Option Nat :=
  match s with
  | '[' :: rest =>
    match first_lit_at lit_alt1 rest with
    | none => none
    | some n =>
      let after_lit := rest.drop n
      let ws := after_lit.takeWhile is_space_char
      let after_ws := after_lit.drop ws.length
      let ds := after_ws.takeWhile is_digit_char
      if ds = [] then none
      else
        let after_ds := after_ws.drop ds.length
        let body := after_ds.takeWhile (· != ']')
        match after_ds.drop body.length with
        | ']' :: _ => some (1 + n + ws.length + ds.length + body.length + 1)
        | _ => none
  | _ => none

/-- Worker for `sub_citation1`: delete every match, scanning left to right. -/
def sub_citation1_go : Nat → List Char → List Char
  | 0, s => s
  | _, [] => []
  | fuel+1, c :: rest =>
    match try_match_citation1 (c :: rest) with
    | some n => sub_citation1_go fuel ((c :: rest).drop n)
    | none => c :: sub_citation1_go fuel rest

/-- `re.sub(r'\[(?:Source|स्रोत|संदर्भ)\s*\d+[^\]]*\]', '', s)`. -/
def sub_citation1 (s : List Char) : List Char := sub_citation1_go s.length s

/-- The distance to just past the nearest following `]`, with `.` unable to
cross a newline. -/
def find_rbracket : List Char → Option Nat
  | [] => none
  | c :: rest =>
    if c = ']' then some 1
    else if c = '\n' then none
    else (find_rbracket rest).map (· + 1)

/-- Complete the match of `:?\s*\d+.*?\]` after one of the `Page` literals:
an optional colon, greedy whitespace, at least one digit, then the lazy tail
up to the nearest `]`. -/
def complete_citation2 (s : List Char) : Option Nat :=
  let t : Nat × List Char := match s with | ':' :: r => (1, r) | _ => (0, s)
  let ws := t.2.takeWhile is_space_char
  let after_ws := t.2.drop ws.length
  let ds := after_ws.takeWhile is_digit_char
  if ds = [] then none
  else
    match find_rbracket (after_ws.drop ds.length) with
    | some m => some (t.1 + ws.length + ds.length + m)
    | none => none

/-- The lazy `.*?(?:Page|पृष्ठ)...` search after the opening `[`: the scan
tries the literal at each successive position (never crossing a newline) and
keeps the first position whose completion succeeds. -/
def try_match_citation2_from : Nat → List Char → Option Nat
  | 0, _ => none
  | _, [] => none
  | fuel+1, c :: rest =>
    match first_lit_at lit_alt2 (c :: rest) with
    | some n =>
      match complete_citation2 ((c :: rest).drop n) with
      | some m => some (n + m)
      | none =>
        if c = '\n' then none
        else (try_match_citation2_from fuel rest).map (· + 1)
    | none =>
      if c = '\n' then none
      else (try_match_citation2_from fuel rest).map (· + 1)

/-- Attempt to match `\[.*?(?:Page|पृष्ठ):?\s*\d+.*?\]` at the head of `s`. -/
def try_match_citation2 (s : List Char) : Option Nat :=
  match s with
  | '[' :: rest =>
    match try_match_citation2_from (rest.length + 1) rest with
    | some n => some (1 + n)
    | none => none
  | _ => none

/-- Worker for `sub_citation2`. -/
def sub_citation2_go : Nat → List Char → List Char
  | 0, s => s
  | _, [] => []
  | fuel+1, c :: rest =>
    match try_match_citation2 (c :: rest) with
    | some n => sub_citation2_go fuel ((c :: rest).drop n)
    | none => c :: sub_citation2_go fuel rest

/-- `re.sub(r'\[.*?(?:Page|पृष्ठ):?\s*\d+.*?\]', '', s)`. -/
def sub_citation2 (s : List Char) : List Char := sub_citation2_go s.length s

/-- The citation-strip plus whitespace-collapse sequence applied both in the
adapter (mistral_service.py lines 192-194) and again in the orchestrator
(rag_orchestrator.py lines 231-233). -/
def clean_citations (s : List Char) : List Char :=
  collapse_ws (sub_citation2 (sub_citation1 s))

/-- Attempt to match `\([^)]*[a-zA-Z][^)]*\)` at the head of `s`: a
parenthesised fragment, closed before any other `)`, containing at least one
basic-Latin letter. -/
def try_match_paren (s : List Char) : Option Nat :=
  match s with
  | '(' :: rest =>
    let body := rest.takeWhile (· != ')')
    match rest.drop body.length with
    | ')' :: _ => if body.any is_latin_letter then some (1 + body.length + 1) else none
    | _ => none
  | _ => none

/-- Worker for `strip_parens`. -/
def strip_parens_go : Nat → List Char → List Char
  | 0, s => s
  | _, [] => []
  | fuel+1, c :: rest =>
    match try_match_paren (c :: rest) with
    | some n => strip_parens_go fuel ((c :: rest).drop n)
    | none => c :: strip_parens_go fuel rest

/-- `re.sub(r'\([^)]*[a-zA-Z][^)]*\)', '', s)` (rag_orchestrator.py
line 245). -/
def strip_parens (s : List Char) : List Char := strip_parens_go s.length s

/-- Python `str.capitalize()` (ASCII model): first character upper-cased,
the rest lower-cased. -/
def capitalize_ascii (s : List Char) : List Char :=
  match s with
  | [] => []
  | c :: rest => upper_ascii c :: rest.map lower_ascii

/-- rag_orchestrator.generate_answer lines 239-242: plain substring
replacement of the term and of its capitalised, upper-cased and lower-cased
variants, in that order. -/
def replace_variants (a : List Char) (p : List Char × List Char) : List Char :=
  replace_all (p.1.map lower_ascii) p.2
    (replace_all (p.1.map upper_ascii) p.2
      (replace_all (capitalize_ascii p.1) p.2
        (replace_all p.1 p.2 a)))

/-- The orchestrator-side Hindi pass (rag_orchestrator.generate_answer lines
236-246): whenever the response language is Hindi and a non-empty glossary
is present (`if language.lower() in [...] and hindi_terms:`), every glossary
term is substituted (longest source term first, four case variants, plain
substring replacement), then Latin-containing parentheticals are stripped
and whitespace is collapsed.  Unlike the adapter-side pass, this is NOT
gated on the leakage count. -/
def orch_leakage (language : List Char)
    (hindi_terms : Option (List (List Char × List Char)))
    (answer : List Char) : List Char :=
  match hindi_terms with
  | some g =>
    if is_hindi_lang language ∧ g ≠ [] then
      collapse_ws (strip_parens ((sort_terms_desc g).foldl replace_variants answer))
    else answer
  | none => answer

/-! ## Prompt builder (mistral_service.build_mistral_prompt, lines 60-151) -/

/-- The English instruction template (mistral_service.py lines 120-130). -/
def english_system_instruction (grade : Nat) (subject : List Char) : List Char :=
  str "You are an expert NCERT textbook tutor for Grade " ++ Nat.toDigits 10 grade ++
    str " " ++ subject ++
    str " students.\n\nCRITICAL INSTRUCTIONS:\n1. Answer in English only\n2. Answer ONLY the student\x27s specific question\n3. Base your answer ONLY on the provided context\n4. Do NOT include [Source X] or citations within your answer text\n5. Write in clear, flowing paragraphs\n6. Keep your answer suitable for Grade " ++
    Nat.toDigits 10 grade ++
    str " students\n7. If context doesn\x27t contain the answer, say \"I don\x27t have enough information\"\n8. Do NOT answer any example questions found in the context"

/-- The Hindi instruction template (mistral_service.py lines 97-106). -/
def hindi_system_instruction (grade : Nat) (subject : List Char) : List Char :=
  str "आप Grade " ++ Nat.toDigits 10 grade ++
    str " के छात्रों के लिए एक विशेषज्ञ NCERT " ++ subject ++
    str " पाठ्यपुस्तक शिक्षक हैं।\n\nबहुत महत्वपूर्ण निर्देश:\n1. उत्तर केवल हिंदी में दें (देवनागरी लिपि में)\n2. अंग्रेजी शब्दों का बिल्कुल प्रयोग न करें\n3. वैज्ञानिक शब्दों के लिए हिंदी पारिभाषिक शब्दों का प्रयोग करें\n4. केवल दिए गए संदर्भ के आधार पर उत्तर दें\n5. उत्तर में [Source] या [स्रोत] टैग न लिखें\n6. सरल और स्पष्ट भाषा में लिखें\n7. Grade " ++
    Nat.toDigits 10 grade ++ str " के छात्रों के स्तर के अनुसार उत्तर दें"

/-- The Hindi terminology block (mistral_service.py lines 109-113): at most
15 glossary pairs are appended for reference. -/
def hindi_terms_block (g : List (List Char × List Char)) : List Char :=
  str "\n\nहिंदी शब्दावली (केवल संदर्भ के लिए):\n" ++
    (g.take 15).foldl
      (fun acc p => acc ++ str "• " ++ p.1 ++ str " = " ++ p.2 ++ str "\n") []

/-- mistral_service.build_mistral_prompt (lines 60-151): the language
selects the instruction template and the localised headers; the context blob
and the RAW query are wrapped between the `[INST]`/`[/INST]` boundary
markers. -/
def build_mistral_prompt (query : List Char) (context_chunks : List (List Char))
    (grade : Nat) (language : List Char) (subject : List Char)
    (hindi_terms : Option (List (List Char × List Char))) : List Char :=
  let is_hindi_query := is_hindi_lang language
  let context_text := build_context is_hindi_query context_chunks
  let system_instruction :=
    if is_hindi_query then
      hindi_system_instruction grade subject ++
        (match hindi_terms with
         | some g => if g = [] then [] else hindi_terms_block g
         | none => [])
    else english_system_instruction grade subject
  let context_header :=
    if is_hindi_query then str "NCERT पाठ्यपुस्तक से संदर्भ सामग्री:"
    else str "Reference Material from NCERT Textbooks:"
  let question_header :=
    if is_hindi_query then str "छात्र का प्रश्न:" else str "Student\x27s Question:"
  let answer_instruction :=
    if is_hindi_query then str "उत्तर (केवल हिंदी में, बिना किसी स्रोत उद्धरण के):"
    else str "Answer (in English, without source citations in text):"
  let before_query := str "[INST] " ++ system_instruction ++ str "\n\n" ++
    context_header ++ str "\n" ++ context_text ++ str "\n\n" ++
    question_header ++ str " "
  let after_query := str "\n\n" ++ answer_instruction ++ str " [/INST]"
  before_query ++ (query ++ after_query)

/-! ## Generation adapter (mistral_service.generate_answer, lines 153-226) -/

/-- The successful outcome of the generation collaborator:
`response['choices'][0]['text']` and `response['usage']['completion_tokens']`. -/
structure GenOutput where
  text : List Char
  completion_tokens : Nat
deriving DecidableEq

/-- The structured result dictionary returned by the adapter. -/
structure GenResult where
  answer : List Char
  tokens_used : Nat
  model : List Char
  success : Bool
  error : Option (List Char) := none
deriving DecidableEq

/-- The fixed model identifier. -/
def MODEL_NAME : List Char := str "Mistral-7B-Instruct-v0.2"

/-- The fixed degraded-answer text. -/
def DEGRADED_ANSWER : List Char := str "Error: Could not generate response"

/-- The post-processing applied inside the adapter's `try` block
(mistral_service.py lines 188-205): strip the raw text, remove bracketed
citation fragments, collapse whitespace, then the Hindi leakage pass. -/
def adapter_post_process (language : List Char)
    (hindi_terms : Option (List (List Char × List Char)))
    (raw : List Char) : List Char :=
  adapter_leakage language hindi_terms (clean_citations (strip_ws raw))

/-- mistral_service.generate_answer (lines 153-226): the prompt is built,
the generation collaborator is invoked on it, and any underlying failure is
converted into a structured result (success=false, the fixed degraded answer,
zero tokens, and the error detail) instead of escaping the adapter.  The
collaborator (`self.model(prompt, ...)` with the fixed sampling
configuration and stop sequences, which are external to this core) is
abstracted as a function from the prompt to an error string or a
`GenOutput`. -/
def mistral_generate_answer (query : List Char) (context_chunks : List (List Char))
    (grade : Nat) (language : List Char) (subject : List Char)
    (hindi_terms : Option (List (List Char × List Char)))
    (model : List Char → Except (List Char) GenOutput) : GenResult :=
  let prompt := build_mistral_prompt query context_chunks grade language subject hindi_terms
  match model prompt with
  | Except.ok resp =>
    { answer := adapter_post_process language hindi_terms resp.text,
      tokens_used := resp.completion_tokens,
      model := MODEL_NAME,
      success := true,
      error := none }
  | Except.error e =>
    { answer := DEGRADED_ANSWER,
      tokens_used := 0,
      model := MODEL_NAME,
      success := false,
      error := some e }

/-- rag_orchestrator.generate_answer (lines 204-253): with no LLM service a
fixed fallback string is returned; otherwise the adapter result is examined
and, on success, the answer is citation-cleaned and run through the
orchestrator-side Hindi pass, while on failure the fixed degraded-answer
text is substituted. -/
def orch_generate_answer (query : List Char) (context_chunks : List (List Char))
    (grade : Nat) (subject : List Char) (language : List Char)
    (hindi_terms : Option (List (List Char × List Char)))
    (llm : Option (List Char → Except (List Char) GenOutput)) : List Char :=
  match llm with
  | none => str "Error: LLM service not available"
  | some model =>
    let result := mistral_generate_answer query context_chunks grade language
      subject hindi_terms model
    if result.success then
      orch_leakage language hindi_terms (clean_citations result.answer)
    else DEGRADED_ANSWER

/-! ## Orchestrator (rag_orchestrator.process_query, lines 124-202) -/

/-- The QueryResponse dataclass of rag_orchestrator.py (lines 17-23).
The orchestrator-level citations are (chapter, page) pairs; a `none` page
models the `'Unknown'` default of `metadata.get('page_num', 'Unknown')`. -/
structure OrchQueryResponse where
  answer : List Char
  language : List Char
  confidence : ℚ
  citations : List (List Char × Option Int)
  retrieved_chunks : List Chunk

/-- rag_orchestrator.process_query (lines 124-202).  The embedding model
plus vector store (`encode` followed by `vector_store.search` with its fixed
filters) are abstracted as one collaborator `search` keyed by the search
string and `top_k`; the generation model is the collaborator `model` keyed
by the full prompt.  Wall-clock logging is external. -/
def process_query (query : List Char) (grade : Nat) (subject : Option (List Char))
    (top_k : Nat) (language : Option (List Char))
    (search : List Char → Nat → List Chunk)
    (model : List Char → Except (List Char) GenOutput) : OrchQueryResponse :=
  let response_language := match language with
    | none => str "english"
    | some l => if l = [] then str "english" else l
  let search_query := search_string_of query
  let retrieved_chunks := search search_query top_k
  let context_chunks := retrieved_chunks.map (fun c => c.text.getD [])
  let hindi_terms :=
    if is_hindi_lang response_language then some english_to_hindi else none
  let answer := orch_generate_answer query context_chunks grade
    (subject.getD (str "science")) response_language hindi_terms (some model)
  { answer := answer,
    language := response_language,
    confidence := 9/10,
    citations := retrieved_chunks.map
      (fun c => ((c.metadata.getD {}).chapter.getD UNKNOWN, (c.metadata.getD {}).page_num)),
    retrieved_chunks := retrieved_chunks }

/-! ## Request surface (scripts/api_server.py) -/

/-- The MistralConfig dataclass (mistral_service.py lines 11-22). -/
structure MistralConfig where
  model_path : List Char := str "../models/mistral-7b-instruct-v0.2.gguf"
  n_ctx : Nat := 4096
  n_threads : Nat := 8
  n_gpu_layers : Nat := 0
  temperature : ℚ := 3/10
  top_p : ℚ := 95/100
  top_k : Nat := 40
  max_tokens : Nat := 512
  verbose : Bool := false
deriving DecidableEq

/-- The QueryRequest model (api_server.py lines 34-51). -/
structure QueryRequest where
  query : List Char
  grade : Nat
  subject : List Char
  language : Option (List Char) := some (str "english")
  top_k : Nat := 3
deriving DecidableEq

/-- The QueryMetadata model (api_server.py lines 71-81), minus the
wall-clock processing time, which is external to this core. -/
structure QueryMetadata where
  grade : Nat
  subject : List Char
  language : List Char
  query_language : List Char
  model : List Char
  tokens_used : Nat
  confidence : ℚ
  chunks_retrieved : Nat
deriving DecidableEq

/-- The SourceChunk model (api_server.py lines 64-69) with the flattened
metadata of format_source_chunks (lines 170-183). -/
structure SourceChunk where
  chunk_id : List Char
  full_text : List Char
  page : Int
  chapter : List Char
  sec : List Char
  token_count : Nat
  grade : Nat
  subject : List Char
  source_file : List Char
  relevance : ℚ
deriving DecidableEq

/-- The per-chunk record of api_server.format_source_chunks (lines 166-184). -/
def source_chunk_of (chunk : Chunk) : SourceChunk :=
  let metadata := chunk.metadata.getD {}
  { chunk_id := chunk.chunk_id.getD [],
    full_text := chunk.text.getD [],
    page := metadata.page_num.getD 0,
    chapter := metadata.chapter.getD UNKNOWN,
    sec := metadata.sec.getD GENERAL,
    token_count := metadata.token_count.getD 0,
    grade := metadata.grade.getD 0,
    subject := metadata.subject.getD [],
    source_file := metadata.meta_source_file.getD [],
    relevance := relevance_of (chunk.distance.getD (1/2)) }

/-- The stable descending sort relation of format_source_chunks line 186. -/
def sc_rel_ge (a b : SourceChunk) : Prop := b.relevance ≤ a.relevance

instance : DecidableRel sc_rel_ge :=
  fun a b => inferInstanceAs (Decidable (b.relevance ≤ a.relevance))

/-- api_server.format_source_chunks (lines 162-187). -/
def format_source_chunks (retrieved_chunks : List Chunk) : List SourceChunk :=
  List.insertionSort sc_rel_ge (retrieved_chunks.map source_chunk_of)

/-- api_server.detect_query_language (lines 117-119). -/
def detect_query_language (query : List Char) : List Char :=
  if is_ascii_str query then str "english" else str "hindi"

/-- The QueryResponse model of the request surface (api_server.py
lines 83-88). -/
structure ApiQueryResponse where
  answer : List Char
  metadata : QueryMetadata
  citations : List Citation
  source_chunks : List SourceChunk

/-- The /query endpoint body (api_server.process_query, lines 296-358),
minus transport and wall-clock timing.  `cfg` models
`rag_orchestrator.llm_service.config` when the service exposes one
(`hasattr(rag_orchestrator.llm_service, 'config')`); with no config the
initial `tokens_used = 512` stands. -/
def api_process_query (req : QueryRequest) (cfg : Option MistralConfig)
    (search : List Char → Nat → List Chunk)
    (model : List Char → Except (List Char) GenOutput) : ApiQueryResponse :=
  let query_language := detect_query_language req.query
  let response_language := match req.language with
    | none => str "english"
    | some l => if l = [] then str "english" else l
  let adjusted_top_k :=
    if is_hindi_lang response_language then min req.top_k 3 else req.top_k
  let rag_response := process_query req.query req.grade (some req.subject)
    adjusted_top_k (some response_language) search model
  let tokens_used := match cfg with
    | some c => c.max_tokens
    | none => 512
  { answer := rag_response.answer,
    metadata := {
      grade := req.grade,
      subject := req.subject,
      language := response_language,
      query_language := query_language,
      model := MODEL_NAME,
      tokens_used := tokens_used,
      confidence := rag_response.confidence,
      chunks_retrieved := rag_response.retrieved_chunks.length },
    citations := format_citations rag_response.retrieved_chunks req.grade req.subject,
    source_chunks := format_source_chunks rag_response.retrieved_chunks }

/-! ## Claims C5, C6, C8, C9, C10 -/

/-- Claim C5: the generation adapter is a total function of the collaborator
outcome (a structured result, never a raised fault); on a collaborator
failure it returns success=false together with the error detail, zero
tokens and the fixed degraded-answer text, and the orchestrator then
substitutes the fixed degraded-answer text as the response; on a
collaborator success it returns success=true. -/
theorem C5_adapter_structured_failure (query : List Char) (ctx : List (List Char))
    (grade : Nat) (language subject : List Char)
    (hindi_terms : Option (List (List Char × List Char)))
    (model : List Char → Except (List Char) GenOutput) (e : List Char) :
    (model (build_mistral_prompt query ctx grade language subject hindi_terms)
        = Except.error e →
      mistral_generate_answer query ctx grade language subject hindi_terms model
        = { answer := DEGRADED_ANSWER, tokens_used := 0, model := MODEL_NAME,
            success := false, error := some e } ∧
      orch_generate_answer query ctx grade subject language hindi_terms (some model)
        = DEGRADED_ANSWER) ∧
    (∀ out,
      model (build_mistral_prompt query ctx grade language subject hindi_terms)
          = Except.ok out →
      (mistral_generate_answer query ctx grade language subject hindi_terms
          model).success = true) := by
  constructor
  · intro h
    constructor
    · simp only [mistral_generate_answer, h]
    · simp only [orch_generate_answer, mistral_generate_answer, h]
      rfl
  · intro out h
    simp only [mistral_generate_answer, h]

/-- Witness for claim C5 at a concrete always-failing collaborator. -/
theorem C5_adapter_structured_failure_witness :
    ((fun _ => Except.error (str "boom") : List Char → Except (List Char) GenOutput)
        (build_mistral_prompt (str "q") [] 6 (str "english") (str "science") none)
      = Except.error (str "boom")) ∧
    (mistral_generate_answer (str "q") [] 6 (str "english") (str "science") none
        (fun _ => Except.error (str "boom"))
      = { answer := DEGRADED_ANSWER, tokens_used := 0, model := MODEL_NAME,
          success := false, error := some (str "boom") } ∧
      orch_generate_answer (str "q") [] 6 (str "science") (str "english") none
        (some (fun _ => Except.error (str "boom"))) = DEGRADED_ANSWER) :=
  ⟨rfl,
    (C5_adapter_structured_failure (str "q") [] 6 (str "english") (str "science")
      none (fun _ => Except.error (str "boom")) (str "boom")).1 rfl⟩

theorem translate_foldl_id (q : List Char) :
    ∀ (pairs : List (List Char × List Char)) (tq : List Char),
      (∀ p ∈ pairs, contains_sub p.1 q = false) →
      pairs.foldl
        (fun tq p => if contains_sub p.1 q then replace_all p.1 p.2 tq else tq)
        tq = tq := by
  intro pairs
  induction pairs with
  | nil => intro tq _; rfl
  | cons p rest ih =>
    intro tq hall
    have hp : contains_sub p.1 q = false := hall p (List.mem_cons_self p rest)
    simp only [List.foldl_cons]
    rw [if_neg (by simp [hp])]
    exact ih tq (fun p' hp' => hall p' (List.mem_cons_of_mem p hp'))

/-- Claim C6: a query containing none of the recognised Hindi glossary terms
canonicalises to itself (hence canonicalisation is idempotent on it); the
pipeline depends on the retrieval collaborator only through the canonical
search string, and on the generation collaborator only through prompts built
around the original raw query; the raw query appears verbatim inside the
prompt handed to generation. -/
theorem C6_canonical_query_dataflow (query : List Char) :
    ((∀ p ∈ hindi_to_english, contains_sub p.1 query = false) →
      search_string_of query = query ∧
      search_string_of (search_string_of query) = search_string_of query) ∧
    (∀ (grade : Nat) (subject : Option (List Char)) (top_k : Nat)
        (language : Option (List Char))
        (s1 s2 : List Char → Nat → List Chunk)
        (model : List Char → Except (List Char) GenOutput),
      s1 (search_string_of query) top_k = s2 (search_string_of query) top_k →
      process_query query grade subject top_k language s1 model
        = process_query query grade subject top_k language s2 model) ∧
    (∀ (grade : Nat) (subject : Option (List Char)) (top_k : Nat)
        (language : Option (List Char))
        (search : List Char → Nat → List Chunk)
        (m1 m2 : List Char → Except (List Char) GenOutput),
      (∀ ctx g lang subj ht,
        m1 (build_mistral_prompt query ctx g lang subj ht)
          = m2 (build_mistral_prompt query ctx g lang subj ht)) →
      process_query query grade subject top_k language search m1
        = process_query query grade subject top_k language search m2) ∧
    (∀ (ctx : List (List Char)) (g : Nat) (lang subj : List Char)
        (ht : Option (List (List Char × List Char))),
      ∃ pre post,
        build_mistral_prompt query ctx g lang subj ht = pre ++ (query ++ post)) := by
  refine ⟨?_, ?_, ?_, ?_⟩
  · intro hall
    have h1 : translate_hindi_query query = query :=
      translate_foldl_id query hindi_to_english query hall
    have h2 : search_string_of query = query := by
      unfold search_string_of
      split_ifs <;> simp [h1]
    exact ⟨h2, by rw [h2]; exact h2⟩
  · intro grade subject top_k language s1 s2 model hsearch
    simp only [process_query]
    rw [hsearch]
  · intro grade subject top_k language search m1 m2 hmodel
    simp only [process_query, orch_generate_answer, mistral_generate_answer]
    rw [hmodel]
  · intro ctx g lang subj ht
    exact ⟨_, _, rfl⟩

/-- Witness for claim C6 at the concrete ASCII query "hello" and two
collaborators agreeing on the canonical search string. -/
theorem C6_canonical_query_dataflow_witness :
    ((∀ p ∈ hindi_to_english, contains_sub p.1 (str "hello") = false) ∧
      ((fun _ _ => [] : List Char → Nat → List Chunk) (search_string_of (str "hello")) 3
        = (fun _ _ => [] : List Char → Nat → List Chunk) (search_string_of (str "hello")) 3)) ∧
    (search_string_of (str "hello") = str "hello" ∧
      search_string_of (search_string_of (str "hello")) = search_string_of (str "hello")) ∧
    process_query (str "hello") 6 none 3 none (fun _ _ => [])
        (fun _ => Except.error (str "x"))
      = process_query (str "hello") 6 none 3 none (fun _ _ => [])
        (fun _ => Except.error (str "x")) :=
  ⟨⟨by decide, rfl⟩,
    (C6_canonical_query_dataflow (str "hello")).1 (by decide),
    (C6_canonical_query_dataflow (str "hello")).2.1 6 none 3 none
      (fun _ _ => []) (fun _ _ => []) (fun _ => Except.error (str "x")) rfl⟩

/-- Claim C8 (corrected): with a Hindi response language, the adapter-side
sanitizer substitutes glossary terms case-insensitively on word boundaries,
longest source term first, only when the count of 4+-letter basic-Latin runs
exceeds 5 and a non-empty glossary is available, and otherwise only flags
the leakage; but the orchestrator-side pass additionally substitutes
glossary terms (four case variants, longest first, plain substring
replacement) and strips Latin-containing parentheticals whenever the
response language is Hindi and a non-empty glossary is available, regardless
of the leakage count; with no glossary neither pass alters the text. -/
theorem C8_sanitizer_gating (g : List (List Char × List Char)) (a : List Char)
    (hg : g ≠ []) :
    adapter_leakage (str "hindi") none a = a ∧
    (count_english_runs a ≤ 5 → adapter_leakage (str "hindi") (some g) a = a) ∧
    (5 < count_english_runs a →
      adapter_leakage (str "hindi") (some g) a
        = (sort_terms_desc g).foldl (fun s p => sub_word_ci p.1 p.2 s) a) ∧
    orch_leakage (str "hindi") none a = a ∧
    orch_leakage (str "hindi") (some g) a
      = collapse_ws (strip_parens ((sort_terms_desc g).foldl replace_variants a)) := by
  refine ⟨?_, ?_, ?_, rfl, ?_⟩
  · simp [adapter_leakage]
  · intro hle
    simp only [adapter_leakage]
    rw [if_pos (by decide), if_neg (by omega)]
  · intro hgt
    simp only [adapter_leakage]
    rw [if_pos (by decide), if_pos hgt, if_neg hg]
  · simp only [orch_leakage]
    rw [if_pos ⟨by decide, hg⟩]

/-- Witness for claim C8 at a concrete one-entry glossary, a low-leakage
answer and a high-leakage answer. -/
theorem C8_sanitizer_gating_witness :
    ([(str "water", str "पानी")] ≠ ([] : List (List Char × List Char)) ∧
      count_english_runs (str "ok") ≤ 5 ∧
      5 < count_english_runs (str "alpha bravo charlie delta echoes foxtrot")) ∧
    adapter_leakage (str "hindi") (some [(str "water", str "पानी")]) (str "ok")
      = str "ok" ∧
    adapter_leakage (str "hindi") (some [(str "water", str "पानी")])
        (str "alpha bravo charlie delta echoes foxtrot")
      = (sort_terms_desc [(str "water", str "पानी")]).foldl
          (fun s p => sub_word_ci p.1 p.2 s)
          (str "alpha bravo charlie delta echoes foxtrot") :=
  ⟨⟨by decide, by decide, by decide⟩,
    (C8_sanitizer_gating [(str "water", str "पानी")] (str "ok") (by decide)).2.1
      (by decide),
    (C8_sanitizer_gating [(str "water", str "पानी")]
      (str "alpha bravo charlie delta echoes foxtrot") (by decide)).2.2.1
      (by decide)⟩

/-- Counterexample for claim C8 as stated: with a Hindi response, a glossary
available, and a generated answer whose 4+-letter Latin-run count is 1
(below the threshold 5), the pipeline output is still substituted — the
orchestrator-side pass replaces glossary terms unconditionally, so "only if
that count exceeds the fixed threshold of 5 ... does it substitute" fails on
the code. -/
theorem C8_counterexample :
    count_english_runs (str "water") ≤ 5 ∧
    orch_generate_answer (str "q") [] 6 (str "science") (str "hindi")
        (some [(str "water", str "पानी")])
        (some (fun _ => Except.ok ⟨str "water", 7⟩))
      = str "पानी" ∧
    str "पानी" ≠ str "water" := by
  refine ⟨by decide, ?_, by decide⟩
  decide

/-- Claim C9: the QueryResponse returned by process_query always carries
confidence exactly 0.9, whatever the query, language, collaborators and
retrieved chunks are. -/
theorem C9_constant_confidence (query : List Char) (grade : Nat)
    (subject : Option (List Char)) (top_k : Nat) (language : Option (List Char))
    (search : List Char → Nat → List Chunk)
    (model : List Char → Except (List Char) GenOutput) :
    (process_query query grade subject top_k language search model).confidence
      = 9/10 :=
  rfl

/-- Claim C10: the tokens_used reported in the response metadata equals the
configured generation max_tokens whenever the LLM service exposes a config
(falling back to the literal 512 when it does not), the default
configuration's max_tokens is 512, and the reported value is independent of
the generation collaborator — hence never the actual completion-token count
of the generation call. -/
theorem C10_tokens_used_is_config_limit (req : QueryRequest) (cfg : MistralConfig)
    (search : List Char → Nat → List Chunk)
    (m1 m2 : List Char → Except (List Char) GenOutput) :
    (api_process_query req (some cfg) search m1).metadata.tokens_used
      = cfg.max_tokens ∧
    (api_process_query req none search m1).metadata.tokens_used = 512 ∧
    (api_process_query req (some cfg) search m1).metadata.tokens_used
      = (api_process_query req (some cfg) search m2).metadata.tokens_used ∧
    ({} : MistralConfig).max_tokens = 512 :=
  ⟨rfl, rfl, rfl, rfl⟩

end RagPipeline
